import Mathlib

/-!
Shallow embedding of the star-capture-suite control-panel components and
proofs about the frozen claims over that embedding.

Embedded components (translated from the TypeScript source):
* `SequencePlanner` — src/unnamed/part_001: the sequence-item data shape, the
  component's initial state, the add-sequence form state and its setters, the
  `addSequence` operation, and the `totalDuration` computation.
* `TelemetryPanel` — src/unnamed/part_000: the telemetry record, its initial
  state and the one-second `setInterval` update, with the four `Math.random()`
  draws passed in explicitly.  JS numbers are modelled as rationals.
* `FileLibrary` — src/src/components/FileLibrary.tsx: the mock file list, the
  `filteredFiles` computation, and the component's local UI state.

JS integers (`parseInt` results, frame counts, sizes) are modelled as `Int`;
JS floats as `ℚ`; `Date.now().toString()` ids as opaque `String` parameters.
-/

namespace StarCapture

/-! ## SequencePlanner (src/unnamed/part_001) -/

/-- Field `type: 'subs' | 'darks' | 'bias' | 'flats'` from the `SequenceItem`
interface. -/
inductive SeqType
  | subs
  | darks
  | bias
  | flats
  deriving DecidableEq

/-- Field `status: 'pending' | 'running' | 'completed' | 'paused'` from the
`SequenceItem` interface: the full set of statuses the TypeScript union type
admits. -/
inductive SeqStatus
  | pending
  | running
  | completed
  | paused
  deriving DecidableEq, Fintype

/-- The string a status renders as (the component interpolates the status
value directly, e.g. `{seq.status}` and `seq.status === 'running'`). -/
def statusString : SeqStatus → String
  | SeqStatus.pending => "pending"
  | SeqStatus.running => "running"
  | SeqStatus.completed => "completed"
  | SeqStatus.paused => "paused"

/-- The `SequenceItem` interface. -/
structure SequenceItem where
  id : String
  type : SeqType
  frames : Int
  exposure : String
  gain : Int
  completed : Int
  status : SeqStatus
  deriving DecidableEq

/-- First element of the component's initial `sequences` state. -/
def seqItem1 : SequenceItem :=
  { id := "1", type := SeqType.subs, frames := 30, exposure := "300\"",
    gain := 1600, completed := 12, status := SeqStatus.running }

/-- Second element of the component's initial `sequences` state. -/
def seqItem2 : SequenceItem :=
  { id := "2", type := SeqType.darks, frames := 10, exposure := "300\"",
    gain := 1600, completed := 0, status := SeqStatus.pending }

/-- The initial `sequences` state of `useState<SequenceItem[]>`. -/
def initialSequences : List SequenceItem := [seqItem1, seqItem2]

/-- The `newSequence` form state (the object passed to
`useState({type, frames, exposure, gain, interval})`). -/
structure NewSequence where
  type : SeqType
  frames : Int
  exposure : String
  gain : Int
  interval : Int
  deriving DecidableEq

/-- Initial `newSequence` form state. -/
def initialNewSequence : NewSequence :=
  { type := SeqType.subs, frames := 30, exposure := "300\"", gain := 1600,
    interval := 5 }

/-- Handler `setNewSequence({...newSequence, type: value})`. -/
def setNewType (t : SeqType) (n : NewSequence) : NewSequence :=
  { n with type := t }

/-- Handler `setNewSequence({...newSequence, frames: parseInt(e.target.value)})` —
the parsed integer is passed in; the form performs no validation. -/
def setNewFrames (v : Int) (n : NewSequence) : NewSequence :=
  { n with frames := v }

/-- Handler `setNewSequence({...newSequence, exposure: value})`. -/
def setNewExposure (v : String) (n : NewSequence) : NewSequence :=
  { n with exposure := v }

/-- Handler `setNewSequence({...newSequence, gain: parseInt(e.target.value)})`. -/
def setNewGain (v : Int) (n : NewSequence) : NewSequence :=
  { n with gain := v }

/-- The values of the exposure `Select` in the add-sequence form. -/
def exposureOptions : List String := ["30", "60", "120", "300", "600"]

/-- Form states reachable through the add-sequence form controls: the initial
form value updated through the `Select`/`Input` handlers.  Frames and gain may
be any parsed integer (the number inputs are unvalidated); the exposure select
only offers the five listed values. -/
inductive FormReachable : NewSequence → Prop
  | init : FormReachable initialNewSequence
  | setType (t : SeqType) (n : NewSequence) :
      FormReachable n → FormReachable (setNewType t n)
  | setFrames (v : Int) (n : NewSequence) :
      FormReachable n → FormReachable (setNewFrames v n)
  | setExposure (v : String) (n : NewSequence) :
      v ∈ exposureOptions → FormReachable n → FormReachable (setNewExposure v n)
  | setGain (v : Int) (n : NewSequence) :
      FormReachable n → FormReachable (setNewGain v n)

/-- The object literal built inside `addSequence`:
`{id: Date.now().toString(), ...newSequence, completed: 0, status: 'pending'}`.
`now` stands for `Date.now().toString()`.  (The spread's `interval` property
has no corresponding field in the `SequenceItem` interface and is never
read.) -/
def addedItem (now : String) (n : NewSequence) : SequenceItem :=
  { id := now, type := n.type, frames := n.frames, exposure := n.exposure,
    gain := n.gain, completed := 0, status := SeqStatus.pending }

/-- Operation `addSequence`: `setSequences([...sequences, sequence])` — the only
state-mutating operation of the component. -/
def addSequence (now : String) (n : NewSequence) (sequences : List SequenceItem) :
    List SequenceItem :=
  sequences ++ [addedItem now n]

/-- States of the planner's `sequences` list reachable from the initial state
through the component's only mutating operation, `addSequence`, invoked with a
form value reachable through the form controls. -/
inductive Reachable : List SequenceItem → Prop
  | init : Reachable initialSequences
  | add (now : String) (n : NewSequence) (s : List SequenceItem) :
      FormReachable n → Reachable s → Reachable (addSequence now n s)

/-- Number of items whose status is `running`. -/
def countRunning (s : List SequenceItem) : Nat :=
  (s.filter (fun it => it.status == SeqStatus.running)).length

/-- Claim C1: in every reachable state of the SequencePlanner at most one
sequence item has status `running`: the initial state has exactly one, and
`addSequence` (the only state-mutating operation) appends an item with status
`pending`, preserving the count. -/
theorem C1_at_most_one_running :
    ∀ s, Reachable s → countRunning s ≤ 1 := by
  intro s h
  induction h with
  | init => decide
  | add now n s hn hs ih =>
      simpa [countRunning, addSequence, addedItem, List.filter_append] using ih

/-- Witness for C1 at the initial state. -/
theorem C1_at_most_one_running_witness :
    countRunning initialSequences ≤ 1 :=
  C1_at_most_one_running initialSequences Reachable.init

/-- Claim C2 counterexample: the add form accepts `frames = 0`
(`parseInt` of the number input is unvalidated), and `addSequence` then
appends an item with `completed = 0 = frames` but status `pending`, a
reachable state violating the biconditional
`status == completed ↔ completedFrames == frameCount`. -/
theorem C2_completed_iff_cex :
    Reachable (addSequence "3" (setNewFrames 0 initialNewSequence) initialSequences) ∧
    (addSequence "3" (setNewFrames 0 initialNewSequence) initialSequences).getLast?.map
        SequenceItem.completed =
      (addSequence "3" (setNewFrames 0 initialNewSequence) initialSequences).getLast?.map
        SequenceItem.frames ∧
    (addSequence "3" (setNewFrames 0 initialNewSequence) initialSequences).getLast?.map
        SequenceItem.status ≠ some SeqStatus.completed :=
  ⟨Reachable.add "3" (setNewFrames 0 initialNewSequence) initialSequences
      (FormReachable.setFrames 0 initialNewSequence FormReachable.init) Reachable.init,
    by decide, by decide⟩

/-- Claim C2 as amended: for every item of every reachable planner state whose
frames count is nonzero, `status == completed` iff `completed == frames`.
(The unamended claim fails exactly for items added with `frames = 0`, where
`completed = 0 = frames` while the status is `pending`.) -/
theorem C2_completed_iff :
    ∀ s, Reachable s → ∀ it, it ∈ s → it.frames ≠ 0 →
      (it.status = SeqStatus.completed ↔ it.completed = it.frames) := by
  intro s h
  induction h with
  | init =>
      intro it hit _
      rcases hit with _ | ⟨_, hit⟩
      · constructor
        · intro hc; exact absurd hc (by decide)
        · intro hc; exact absurd hc (by decide)
      · rcases hit with _ | ⟨_, hit⟩
        · constructor
          · intro hc; exact absurd hc (by decide)
          · intro hc; exact absurd hc (by decide)
        · cases hit
  | add now n s hn hs ih =>
      intro it hit hf
      rcases List.mem_append.1 hit with hmem | hmem
      · exact ih it hmem hf
      · rcases List.mem_singleton.1 hmem with rfl
        simp [addedItem] at hf ⊢
        omega

/-- Witness for C2 at the initial state and its first item. -/
theorem C2_completed_iff_witness :
    seqItem1.status = SeqStatus.completed ↔ seqItem1.completed = seqItem1.frames :=
  C2_completed_iff initialSequences Reachable.init seqItem1
    (by simp [initialSequences]) (by decide)

/-- Claim C3 counterexample: the `SequenceItem` status union type has exactly
four inhabitants, not six — `failed` and `skipped` are not representable. -/
theorem C3_six_statuses_cex :
    Fintype.card SeqStatus = 4 ∧ Fintype.card SeqStatus ≠ 6 := by
  constructor <;> decide

/-- Claim C3 as amended: the status of a sequence item ranges over exactly the
four values `pending`, `running`, `completed`, `paused`: every status is one
of these four, and each of the four is representable (shown through the
strings the component renders). -/
theorem C3_four_statuses :
    Fintype.card SeqStatus = 4 ∧
    (∀ st : SeqStatus, st = SeqStatus.pending ∨ st = SeqStatus.running ∨
      st = SeqStatus.completed ∨ st = SeqStatus.paused) ∧
    statusString SeqStatus.pending = "pending" ∧
    statusString SeqStatus.running = "running" ∧
    statusString SeqStatus.completed = "completed" ∧
    statusString SeqStatus.paused = "paused" := by
  refine ⟨by decide, ?_, rfl, rfl, rfl, rfl⟩
  intro st
  cases st <;> simp

/-- Claim C4 counterexample: the initial state has an item with status
`running`, yet `addSequence` does not fail with `InvalidState` — it has no
error path at all — and it does change the items list. -/
theorem C4_invalid_state_cex :
    seqItem1 ∈ initialSequences ∧ seqItem1.status = SeqStatus.running ∧
    addSequence "x" initialNewSequence initialSequences ≠ initialSequences := by
  refine ⟨by simp [initialSequences], by decide, by decide⟩

/-- Claim C4 as amended: `addSequence` appends the new group after all
existing items without modifying them, unconditionally — also in states where
an item is `running`; no `InvalidState` error exists in the code. -/
theorem C4_append_unconditional :
    ∀ (now : String) (n : NewSequence) (s : List SequenceItem),
      (addSequence now n s).length = s.length + 1 ∧
      (∀ i, i < s.length → (addSequence now n s)[i]? = s[i]?) ∧
      (addSequence now n s).getLast? = some (addedItem now n) ∧
      (addedItem now n).status = SeqStatus.pending := by
  intro now n s
  refine ⟨by simp [addSequence], fun i hi => ?_, ?_, rfl⟩
  · simp [addSequence, List.getElem?_append, hi]
  · simp [addSequence]

/-- Witness for C4 at the initial state (which contains a running item). -/
theorem C4_append_unconditional_witness :
    (addSequence "x" initialNewSequence initialSequences)[0]? = initialSequences[0]? :=
  (C4_append_unconditional "x" initialNewSequence initialSequences).2.1 0 (by decide)

/-- Claim C5 counterexample: the add form accepts a negative frames value
(`parseInt` of the number input is unvalidated), and `addSequence` then
appends an item with `completed = 0` outside `[0, frames] = [0, -1]`, in a
reachable state. -/
theorem C5_completed_bounds_cex :
    Reachable (addSequence "x" (setNewFrames (-1) initialNewSequence) initialSequences) ∧
    (addSequence "x" (setNewFrames (-1) initialNewSequence) initialSequences).getLast?.map
        SequenceItem.frames = some (-1) ∧
    (addSequence "x" (setNewFrames (-1) initialNewSequence) initialSequences).getLast?.map
        SequenceItem.completed = some 0 ∧
    ¬((0 : Int) ≤ -1) :=
  ⟨Reachable.add "x" (setNewFrames (-1) initialNewSequence) initialSequences
      (FormReachable.setFrames (-1) initialNewSequence FormReachable.init) Reachable.init,
    by decide, by decide, by decide⟩

/-- Claim C5 as amended: in every reachable state every item's completed
count is non-negative, and bounded by the item's frames count whenever that
count is itself non-negative (groups added with a negative frames value place
`completed = 0` above `frames`); and the only mutating operation,
`addSequence`, never changes an existing item's completed count, so the count
is monotonically non-decreasing across operations. -/
theorem C5_completed_bounds :
    (∀ s, Reachable s → ∀ it, it ∈ s →
      0 ≤ it.completed ∧ (0 ≤ it.frames → it.completed ≤ it.frames)) ∧
    (∀ (now : String) (n : NewSequence) (s : List SequenceItem) (i : Nat),
      i < s.length →
        ((addSequence now n s).map SequenceItem.completed)[i]? =
          (s.map SequenceItem.completed)[i]?) := by
  constructor
  · intro s h
    induction h with
    | init =>
        intro it hit
        rcases hit with _ | ⟨_, hit⟩
        · exact ⟨by decide, fun _ => by decide⟩
        · rcases hit with _ | ⟨_, hit⟩
          · exact ⟨by decide, fun _ => by decide⟩
          · cases hit
    | add now n s hn hs ih =>
        intro it hit
        rcases List.mem_append.1 hit with hmem | hmem
        · exact ih it hmem
        · rcases List.mem_singleton.1 hmem with rfl
          exact ⟨le_refl 0, fun h0 => by simpa [addedItem] using h0⟩
  · intro now n s i hi
    simp [addSequence, List.getElem?_append, hi]

/-- Witness for C5 at the initial state's first item and at index 0 of an
`addSequence` step. -/
theorem C5_completed_bounds_witness :
    (0 ≤ seqItem1.completed ∧ (0 ≤ seqItem1.frames → seqItem1.completed ≤ seqItem1.frames)) ∧
    ((addSequence "x" initialNewSequence initialSequences).map SequenceItem.completed)[0]? =
      (initialSequences.map SequenceItem.completed)[0]? :=
  ⟨C5_completed_bounds.1 initialSequences Reachable.init seqItem1 (by simp [initialSequences]),
    C5_completed_bounds.2 "x" initialNewSequence initialSequences 0 (by decide)⟩

/-! ### The `totalDuration` computation and the JS string helpers it uses -/

/-- The double-quote character removed from exposure strings. -/
def quoteChar : Char := Char.ofNat 34

/-- JS `str.replace('"', '')` on the underlying characters: removes the first
double quote only (a string pattern in JS `replace` matches once). -/
def removeFirstQuote : List Char → List Char
  | [] => []
  | c :: cs => if c = quoteChar then cs else c :: removeFirstQuote cs

/-- Expression `seq.exposure.replace('"', '')`. -/
def stripQuote (s : String) : String :=
  String.mk (removeFirstQuote s.toList)

/-- Value of a list of decimal digits. -/
def digitsVal (l : List Char) : Nat :=
  l.foldl (fun acc c => acc * 10 + (c.toNat - 48)) 0

/-- JS `parseInt(s)` for decimal inputs: skip leading whitespace, read an
optional sign and then the leading run of decimal digits; `none` stands for
`NaN` (no digits).  (The hexadecimal `0x` prefix form of `parseInt` does not
occur in this codebase's inputs and is not modelled.) -/
def jsParseInt (s : String) : Option Int :=
  let l := s.toList.dropWhile Char.isWhitespace
  match l with
  | '-' :: rest =>
      let ds := rest.takeWhile Char.isDigit
      if ds.isEmpty then none else some (-(digitsVal ds : Int))
  | '+' :: rest =>
      let ds := rest.takeWhile Char.isDigit
      if ds.isEmpty then none else some (digitsVal ds : Int)
  | rest =>
      let ds := rest.takeWhile Char.isDigit
      if ds.isEmpty then none else some (digitsVal ds : Int)

/-- Expression `parseInt(seq.exposure.replace('"', '')) || 0` — the `|| 0` turns `NaN`
into `0` (and maps `0` to itself). -/
def exposureSecondsOf (e : String) : Int :=
  (jsParseInt (stripQuote e)).getD 0

/-- Computation `totalDuration`:
`sequences.reduce((total, seq) => total + seq.frames * exposureSeconds, 0)`
over the whole `sequences` list. -/
def totalDuration (sequences : List SequenceItem) : Int :=
  sequences.foldl (fun total seq => total + seq.frames * exposureSecondsOf seq.exposure) 0

/-- The remaining-time figure as the claim states it: sum over the items with
status `pending` or `running` of `(frames - completed) * exposureSeconds`. -/
def claimRemainingSeconds (sequences : List SequenceItem) : Int :=
  ((sequences.filter (fun seq =>
      seq.status == SeqStatus.pending || seq.status == SeqStatus.running)).map
    (fun seq => (seq.frames - seq.completed) * exposureSecondsOf seq.exposure)).sum

/-- Claim C6 counterexample: on the component's initial state `totalDuration`
is `30·300 + 10·300 = 12000`, while the remaining-frames figure of the claim
is `(30-12)·300 + 10·300 = 8400`: the code neither subtracts completed frames
nor filters by status. -/
theorem C6_total_duration_cex :
    totalDuration initialSequences = 12000 ∧
    claimRemainingSeconds initialSequences = 8400 ∧
    totalDuration initialSequences ≠ claimRemainingSeconds initialSequences := by
  refine ⟨by decide, by decide, by decide⟩

/-- Sum shape of a left fold that only adds. -/
theorem foldl_add_map_sum (g : SequenceItem → Int) :
    ∀ (l : List SequenceItem) (a : Int),
      l.foldl (fun t q => t + g q) a = a + (l.map g).sum := by
  intro l
  induction l with
  | nil => intro a; simp
  | cons q l ih =>
      intro a
      simp [List.foldl_cons, ih (a + g q)]
      ring

/-- Claim C6 as amended: `totalDuration` sums `frames × exposureSeconds`
(the exposure string with its quote stripped, parsed as an integer, `0` when
unparsable) over **all** sequence items, regardless of status and without
subtracting completed frames. -/
theorem C6_total_duration :
    ∀ sequences : List SequenceItem,
      totalDuration sequences =
        (sequences.map (fun seq => seq.frames * exposureSecondsOf seq.exposure)).sum := by
  intro sequences
  simpa using foldl_add_map_sum (fun seq => seq.frames * exposureSecondsOf seq.exposure)
    sequences 0

/-- Claim C7 counterexample: the add-sequence form accepts `frames = 0`
(reachable through the unvalidated number input), and the group appended by
`addSequence` then carries `frames = 0`, which is not positive. -/
theorem C7_positive_frames_cex :
    FormReachable (setNewFrames 0 initialNewSequence) ∧
    (addSequence "x" (setNewFrames 0 initialNewSequence) initialSequences).getLast?.map
        SequenceItem.frames = some 0 ∧
    ¬((0 : Int) < 0) :=
  ⟨FormReachable.setFrames 0 initialNewSequence FormReachable.init, by decide, by decide⟩

/-- Claim C7 as amended: for every submission, the group appended by
`addSequence` carries the form's frames value unchanged and no operation
mutates an existing group's frames value; the appended frames value is
positive if and only if the submitted form value is positive — the form
performs no validation and accepts any parsed integer, zero and negatives
included. -/
theorem C7_frames_fixed_at_creation :
    ∀ (now : String) (n : NewSequence) (s : List SequenceItem),
      (addSequence now n s).getLast?.map SequenceItem.frames = some n.frames ∧
      ((addSequence now n s).map SequenceItem.frames).take s.length =
        s.map SequenceItem.frames ∧
      (∀ x, (addSequence now n s).getLast?.map SequenceItem.frames = some x →
        (0 < x ↔ 0 < n.frames)) := by
  intro now n s
  refine ⟨?_, ?_, ?_⟩
  · simp [addSequence, addedItem]
  · rw [addSequence, List.map_append]
    exact List.take_left' (List.length_map s _)
  · intro x hx
    simp [addSequence, addedItem] at hx
    omega

/-- Witness for C7 with the initial form value (frames 30) at the initial
state, discharging the positivity conjunct's hypothesis at the concrete
appended value. -/
theorem C7_frames_fixed_at_creation_witness :
    (addSequence "x" initialNewSequence initialSequences).getLast?.map
      SequenceItem.frames = some initialNewSequence.frames ∧
    (0 < (30 : Int) ↔ 0 < initialNewSequence.frames) :=
  ⟨(C7_frames_fixed_at_creation "x" initialNewSequence initialSequences).1,
    (C7_frames_fixed_at_creation "x" initialNewSequence initialSequences).2.2 30 (by decide)⟩

/-! ## TelemetryPanel (src/unnamed/part_000)

JS numbers are modelled as rationals; the optional fields (`batteryLevel?`,
`exposureRemaining?`) as `Option ℚ`.  The one-second `setInterval` callback
becomes `tick`, with its four `Math.random()` draws passed in explicitly. -/

/-- The `TelemetryData` interface. -/
structure TelemetryData where
  sensorTemp : ℚ
  cpuTemp : ℚ
  cpuUsage : ℚ
  storageUsed : ℚ
  storageTotal : ℚ
  batteryLevel : Option ℚ
  wifiSignal : ℚ
  focusMetric : ℚ
  exposureRemaining : Option ℚ

/-- The initial `useState<TelemetryData>` value. -/
def initialTelemetry : TelemetryData :=
  { sensorTemp := 42.5, cpuTemp := 65.2, cpuUsage := 35, storageUsed := 125.6,
    storageTotal := 512, batteryLevel := some 78, wifiSignal := 85,
    focusMetric := 892, exposureRemaining := some 245 }

/-- The four `Math.random()` draws of one interval callback, in source
order: sensorTemp, cpuTemp, cpuUsage, focusMetric. -/
structure RandomInputs where
  r1 : ℚ
  r2 : ℚ
  r3 : ℚ
  r4 : ℚ

/-- Constraint that `Math.random()` returns a value in `[0, 1)`. -/
def ValidInputs (r : RandomInputs) : Prop :=
  (0 ≤ r.r1 ∧ r.r1 < 1) ∧ (0 ≤ r.r2 ∧ r.r2 < 1) ∧
  (0 ≤ r.r3 ∧ r.r3 < 1) ∧ (0 ≤ r.r4 ∧ r.r4 < 1)

/-- The `setInterval` callback: `setTelemetry(prev => ({...prev, ...}))`.
The `exposureRemaining` update models the JS conditional
`prev.exposureRemaining ? Math.max(0, prev.exposureRemaining - 1) : undefined`
— a number is truthy exactly when it is nonzero. -/
def tick (r : RandomInputs) (prev : TelemetryData) : TelemetryData :=
  { prev with
    sensorTemp := prev.sensorTemp + (r.r1 - 0.5) * 0.5,
    cpuTemp := prev.cpuTemp + (r.r2 - 0.5) * 2,
    cpuUsage := max 10 (min 90 (prev.cpuUsage + (r.r3 - 0.5) * 10)),
    focusMetric := prev.focusMetric + (r.r4 - 0.5) * 50,
    exposureRemaining :=
      match prev.exposureRemaining with
      | some v => if v = 0 then none else some (max 0 (v - 1))
      | none => none }

/-- Telemetry states reachable from the initial state through ticks with
valid random draws. -/
inductive TReachable : TelemetryData → Prop
  | init : TReachable initialTelemetry
  | tick (r : RandomInputs) (t : TelemetryData) :
      ValidInputs r → TReachable t → TReachable (tick r t)

/-- Claim C9: every reachable telemetry state has `cpuUsage ∈ [10, 90]`
(the update clamps through `Math.max(10, Math.min(90, ·))`) and a
non-negative `exposureRemaining` while it is defined; each tick takes a
defined `exposureRemaining ≥ 1` to exactly one less, and takes the value `0`
to `undefined`, so the countdown decreases by one per tick until it becomes
undefined. -/
theorem C9_telemetry_invariant :
    (∀ t, TReachable t → 10 ≤ t.cpuUsage ∧ t.cpuUsage ≤ 90 ∧
      ∀ v, t.exposureRemaining = some v → 0 ≤ v) ∧
    (∀ (r : RandomInputs) (t : TelemetryData) (v : ℚ),
      t.exposureRemaining = some v → 1 ≤ v →
        (tick r t).exposureRemaining = some (v - 1)) ∧
    (∀ (r : RandomInputs) (t : TelemetryData),
      t.exposureRemaining = some 0 → (tick r t).exposureRemaining = none) := by
  refine ⟨?_, ?_, ?_⟩
  · intro t h
    induction h with
    | init =>
        refine ⟨by norm_num [initialTelemetry], by norm_num [initialTelemetry], ?_⟩
        intro v hv
        simp [initialTelemetry] at hv
        rw [← hv]; norm_num
    | tick r t hr ht ih =>
        refine ⟨le_max_left _ _, max_le (by norm_num) (min_le_left _ _), ?_⟩
        intro v hv
        simp only [tick] at hv
        rcases hE : t.exposureRemaining with _ | w
        · rw [hE] at hv; cases hv
        · rw [hE] at hv
          by_cases hw : w = 0
          · simp [hw] at hv
          · simp [hw] at hv
            rw [← hv]; exact le_max_left _ _
  · intro r t v hv h1
    have hv0 : ¬ v = 0 := by intro h; rw [h] at h1; norm_num at h1
    have hmax : max (0 : ℚ) (v - 1) = v - 1 := max_eq_right (by linarith)
    simp [tick, hv, hv0, hmax]
  · intro r t hv
    simp [tick, hv]

/-- Witness for C9 at the initial state and one tick from it. -/
theorem C9_telemetry_invariant_witness :
    (10 ≤ initialTelemetry.cpuUsage ∧ initialTelemetry.cpuUsage ≤ 90) ∧
    (tick ⟨0, 0, 0, 0⟩ initialTelemetry).exposureRemaining = some 244 := by
  have h := C9_telemetry_invariant
  refine ⟨⟨(h.1 initialTelemetry TReachable.init).1,
    (h.1 initialTelemetry TReachable.init).2.1⟩, ?_⟩
  have h2 := h.2.1 ⟨0, 0, 0, 0⟩ initialTelemetry 245 rfl (by norm_num)
  rw [h2]; norm_num

/-! ## FileLibrary (src/src/components/FileLibrary.tsx) -/

/-- Field `type: 'jpeg' | 'dng' | 'h264' | 'mjpeg' | 'tiff' | 'json'` from the
`FileItem` interface. -/
inductive FileType
  | jpeg
  | dng
  | h264
  | mjpeg
  | tiff
  | json
  deriving DecidableEq

/-- The string value of a file type (the TS union is a string type; the
filter compares these strings). -/
def typeString : FileType → String
  | FileType.jpeg => "jpeg"
  | FileType.dng => "dng"
  | FileType.h264 => "h264"
  | FileType.mjpeg => "mjpeg"
  | FileType.tiff => "tiff"
  | FileType.json => "json"

/-- The optional `metadata` object of a `FileItem`. -/
structure FileMetadata where
  exposure : Option String
  iso : Option Int
  resolution : Option String
  duration : Option Int
  deriving DecidableEq

/-- The `FileItem` interface.  The `timestamp: Date` field is modelled by the
ISO string passed to `new Date(...)`. -/
structure FileItem where
  id : String
  name : String
  type : FileType
  size : Int
  timestamp : String
  session : String
  metadata : Option FileMetadata
  deriving DecidableEq

/-- The metadata shared by the three still-image mock files:
`{ exposure: '300"', iso: 1600, resolution: '4056×3040' }`. -/
def stillMeta : FileMetadata :=
  { exposure := some "300\"", iso := some 1600,
    resolution := some "4056×3040", duration := none }

/-- The metadata of the mock video file:
`{ duration: 30, resolution: '1920×1080' }`. -/
def videoMeta : FileMetadata :=
  { exposure := none, iso := none,
    resolution := some "1920×1080", duration := some 30 }

/-- Mock file 1: `M31_001.dng`. -/
def mockFile1 : FileItem :=
  { id := "1", name := "M31_001.dng", type := FileType.dng, size := 25600000,
    timestamp := "2024-01-15T22:30:00", session := "M31_20240115",
    metadata := some stillMeta }

/-- Mock file 2: `M31_001.jpg`. -/
def mockFile2 : FileItem :=
  { id := "2", name := "M31_001.jpg", type := FileType.jpeg, size := 8400000,
    timestamp := "2024-01-15T22:30:00", session := "M31_20240115",
    metadata := some stillMeta }

/-- Mock file 3: `preview_001.h264`. -/
def mockFile3 : FileItem :=
  { id := "3", name := "preview_001.h264", type := FileType.h264, size := 15600000,
    timestamp := "2024-01-15T22:25:00", session := "M31_20240115",
    metadata := some videoMeta }

/-- Mock file 4: `dark_001.dng`. -/
def mockFile4 : FileItem :=
  { id := "4", name := "dark_001.dng", type := FileType.dng, size := 25600000,
    timestamp := "2024-01-15T23:00:00", session := "M31_20240115",
    metadata := some stillMeta }

/-- Mock file 5: `session.json`. -/
def mockFile5 : FileItem :=
  { id := "5", name := "session.json", type := FileType.json, size := 2048,
    timestamp := "2024-01-15T22:00:00", session := "M31_20240115",
    metadata := none }

/-- The hard-coded `mockFiles` list. -/
def mockFiles : List FileItem :=
  [mockFile1, mockFile2, mockFile3, mockFile4, mockFile5]

/-- Leading-match test on character lists (JS `String.startsWith` shape,
the building block of `includes`). -/
def leadMatch : List Char → List Char → Bool
  | [], _ => true
  | _ :: _, [] => false
  | a :: as, b :: bs => a == b && leadMatch as bs

/-- Substring test on character lists: the needle matches at some position of
the haystack. -/
def hasSub (needle : List Char) : List Char → Bool
  | [] => needle.isEmpty
  | c :: rest => leadMatch needle (c :: rest) || hasSub needle rest

/-- JS `hay.includes(needle)` on strings. -/
def jsIncludes (hay needle : String) : Bool :=
  hasSub needle.toList hay.toList

/-- JS `s.toLowerCase()` modelled characterwise (`Char.toLower`; the file
names and search terms here are ASCII). -/
def jsToLower (s : String) : String :=
  String.mk (s.toList.map Char.toLower)

/-- The predicate of `mockFiles.filter(...)` in `filteredFiles`, with the
early `return false` branches linearized into an if-chain (each inner branch
only returns `false`, so distributing the outer `filterType !== 'all'` guard
is semantics-preserving). -/
def fileFilter (filterType searchTerm : String) (file : FileItem) : Bool :=
  if (filterType != "all") && (filterType == "image")
      && !(["jpeg", "dng", "tiff"].contains (typeString file.type)) then false
  else if (filterType != "all") && (filterType == "video")
      && !(["h264", "mjpeg"].contains (typeString file.type)) then false
  else if (filterType != "all") && (filterType == "raw")
      && (typeString file.type != "dng") then false
  else if (searchTerm != "")
      && !(jsIncludes (jsToLower file.name) (jsToLower searchTerm)) then false
  else true

/-- Computation `filteredFiles` for given `filterType` and `searchTerm` state values. -/
def filteredFiles (filterType searchTerm : String) : List FileItem :=
  mockFiles.filter (fileFilter filterType searchTerm)

/-- Field `viewMode: 'grid' | 'list'`. -/
inductive ViewMode
  | grid
  | list
  deriving DecidableEq

/-- The component's local UI state: `viewMode`, `sortBy`, `filterType`,
`searchTerm`. -/
structure LibraryState where
  viewMode : ViewMode
  sortBy : String
  filterType : String
  searchTerm : String

/-- The initial `useState` values: `'grid'`, `'date'`, `'all'`, `''`. -/
def initialLibraryState : LibraryState :=
  { viewMode := ViewMode.grid, sortBy := "date", filterType := "all",
    searchTerm := "" }

/-- The user operations of the library view: the four state setters wired to
the search input, the two selects and the view-mode buttons. -/
inductive LibraryOp
  | setView (v : ViewMode)
  | setSort (v : String)
  | setFilter (v : String)
  | setSearch (v : String)

/-- Apply a user operation to the component state. -/
def applyOp : LibraryOp → LibraryState → LibraryState
  | LibraryOp.setView v, s => { s with viewMode := v }
  | LibraryOp.setSort v, s => { s with sortBy := v }
  | LibraryOp.setFilter v, s => { s with filterType := v }
  | LibraryOp.setSearch v, s => { s with searchTerm := v }

/-- The file list the component renders (both the grid and the list branch
render `filteredFiles`; the code never re-sorts, so `sortBy` and `viewMode`
do not enter). -/
def displayedFiles (s : LibraryState) : List FileItem :=
  filteredFiles s.filterType s.searchTerm

/-- Claim C8: in every component state — hence after any sequence of search,
filter, sort and view-mode operations — the displayed file list is an
order-preserving sublist of the five hard-coded mock files, and every
displayed file is one of them; no operation adds, removes or mutates a file
(the mock list is a constant and `filteredFiles` only selects from it). -/
theorem C8_mock_files_only :
    (∀ s : LibraryState, List.Sublist (displayedFiles s) mockFiles) ∧
    (∀ (op : LibraryOp) (s : LibraryState),
      List.Sublist (displayedFiles (applyOp op s)) mockFiles) ∧
    (∀ (op : LibraryOp) (s : LibraryState) (f : FileItem),
      f ∈ displayedFiles (applyOp op s) → f ∈ mockFiles) ∧
    mockFiles.length = 5 := by
  refine ⟨fun s => List.filter_sublist _, fun op s => List.filter_sublist _,
    fun op s f hf => ?_, rfl⟩
  exact (List.filter_sublist _).subset hf

/-- Witness for C8: after typing the search `M31` into the initial state,
`M31_001.dng` is displayed and is a mock file. -/
theorem C8_mock_files_only_witness :
    mockFile1 ∈ mockFiles :=
  C8_mock_files_only.2.2.1 (LibraryOp.setSearch "M31") initialLibraryState mockFile1
    (by decide)

/-- The category test as the claim words it: `image` keeps only
jpeg/dng/tiff, `video` keeps only h264/mjpeg, `raw` keeps only dng, `all`
keeps every type. -/
def claimCategory (filterType : String) (t : FileType) : Bool :=
  if filterType == "image" then
    t == FileType.jpeg || t == FileType.dng || t == FileType.tiff
  else if filterType == "video" then
    t == FileType.h264 || t == FileType.mjpeg
  else if filterType == "raw" then
    t == FileType.dng
  else true

/-- The empty needle is a substring of everything (JS
`s.includes('') === true`). -/
theorem hasSub_empty_needle : ∀ l : List Char, hasSub [] l = true := by
  intro l
  cases l <;> simp [hasSub, leadMatch]

/-- Pointwise: for the four filter values the select offers, the source's
filter predicate agrees with the claim's category-and-search test. -/
theorem fileFilter_eq_claim :
    ∀ ft, ft ∈ (["all", "image", "video", "raw"] : List String) →
      ∀ (st : String) (f : FileItem),
        fileFilter ft st f =
          (claimCategory ft f.type && jsIncludes (jsToLower f.name) (jsToLower st)) := by
  intro ft hft st f
  rcases f with ⟨i, nm, ty, sz, ts, ss, md⟩
  by_cases hst : st = ""
  · subst hst
    have he : jsIncludes (jsToLower nm) (jsToLower "") = true := hasSub_empty_needle _
    fin_cases hft <;> cases ty <;>
      simp [fileFilter, claimCategory, typeString, he]
  · have hne : (st != "") = true := by simpa using hst
    fin_cases hft <;> cases ty <;>
      cases hincl : jsIncludes (jsToLower nm) (jsToLower st) <;>
        simp [fileFilter, claimCategory, typeString, hne, hincl]

/-- Claim C10: for each of the four filter values `all`, `image`, `video`,
`raw` and every search term, `filteredFiles` is exactly the mock files that
pass the claim's category test and whose name contains the search term
case-insensitively, in the original list order. -/
theorem C10_filter_exact :
    ∀ (filterType searchTerm : String),
      filterType ∈ (["all", "image", "video", "raw"] : List String) →
        filteredFiles filterType searchTerm =
          mockFiles.filter (fun f =>
            claimCategory filterType f.type &&
              jsIncludes (jsToLower f.name) (jsToLower searchTerm)) := by
  intro ft st hft
  unfold filteredFiles
  exact List.filter_congr (fun f _ => fileFilter_eq_claim ft hft st f)

/-- Witness for C10 at the `image` filter with search term `m31`: the two
M31 still images are kept, in order. -/
theorem C10_filter_exact_witness :
    filteredFiles "image" "m31" =
      mockFiles.filter (fun f =>
        claimCategory "image" f.type &&
          jsIncludes (jsToLower f.name) (jsToLower "m31")) ∧
    filteredFiles "image" "m31" = [mockFile1, mockFile2] :=
  ⟨C10_filter_exact "image" "m31" (by decide), by decide⟩

end StarCapture
